import Mathlib

/-!
Verification of the BlurAnything backend (src/backend/app.py and
src/backend/detect.py) against its natural-language specification.

The Python code is shallowly embedded:
  * bytes that decode to an image are modelled by `Option Img` (`none`
    means `PIL.Image.open` raises, i.e. the bytes are not a valid image);
  * the YOLO network itself is opaque, so inference is a parameter
    `YOLOModel → Img → List YoloResult` supplied to the pipeline;
  * Python exceptions escaping a function are modelled by `Except PyError`;
  * Python floats are modelled by `ℚ` (the claims concern only ordering
    and copying of numeric values, never rounding).
-/

namespace BlurAnything

/-- A channel vector of one pixel (numpy's innermost axis). -/
abbrev Pixel := List ℚ

/-- A decoded image: rows of pixels, i.e. a height × width × channels array. -/
abbrev Img := List (List Pixel)

/-- The `speed` attribute of an ultralytics result:
`{preprocess, inference, postprocess}` in milliseconds. -/
structure SpeedMetrics where
  preprocess : ℚ
  inference : ℚ
  postprocess : ℚ
deriving DecidableEq, Repr

/-- `result.boxes` of an ultralytics result: `data` holds one row
`[x_min, y_min, x_max, y_max, ...]` per detection, `cls` the class ids and
`conf` the confidences (tensors, modelled as lists of rationals). -/
structure Boxes where
  data : List (List ℚ)
  cls : List ℚ
  conf : List ℚ
deriving DecidableEq, Repr

/-- One element of the list returned by calling a YOLO model: boxes, the
class-id → class-name table `names`, and timing metadata. -/
structure YoloResult where
  boxes : Boxes
  names : Int → String
  speed : SpeedMetrics

/-- One entry of the list built by `extract_detection_results`
(detect.py lines 118-127). -/
structure DetectionRecord where
  object : String
  confidence : ℚ
  x_min : ℚ
  y_min : ℚ
  x_max : ℚ
  y_max : ℚ
deriving DecidableEq, Repr

/-- A loaded YOLO model, identified by the weights file it was built from
(`YOLO(model_path)`, detect.py line 68). The network's behaviour is opaque
and supplied separately where inference happens. -/
structure YOLOModel where
  path : String
deriving DecidableEq, Repr

/-- Python exceptions that can escape the embedded functions. -/
inductive PyError where
  /-- `PIL.UnidentifiedImageError` from `Image.open` on non-image bytes. -/
  | decodeError
  /-- `ValueError` raised by `load_model` (detect.py lines 64-66). -/
  | valueError (msg : String)
  /-- `IndexError` from `results[0]` on an empty result list. -/
  | indexError
deriving DecidableEq, Repr

/-- detect.py line 21:
`MODEL_PATHS = {"fast": "models/yolov8n.pt", "accurate": "models/yolov8x.pt"}`
(a dict with its insertion order). -/
def MODEL_PATHS : List (String × String) :=
  [("fast", "models/yolov8n.pt"), ("accurate", "models/yolov8x.pt")]

/-- Python's `repr` of `list(d.keys())` for a string-keyed dict `d`:
the keys in insertion order, each between single quotes (`\x27`). -/
def pyKeysRepr (d : List (String × String)) : String :=
  "[" ++ String.intercalate ", " (d.map (fun kv => "\x27" ++ kv.fst ++ "\x27")) ++ "]"

/-- The message of the `ValueError` raised by `load_model`, the rendering of
`f"Invalid model type. Available options: {list(MODEL_PATHS.keys())}."`. -/
def invalidModelMsg : String :=
  "Invalid model type. Available options: " ++ pyKeysRepr MODEL_PATHS ++ "."

/-- detect.py lines 49-68. The `none` branch of the lookup is the source's
`type_model not in MODEL_PATHS` check (raising before any weights file is
touched); the `some` branch is `MODEL_PATHS[type_model]` followed by
`YOLO(model_path)`. -/
def load_model (type_model : String) : Except PyError YOLOModel :=
  match MODEL_PATHS.lookup type_model with
  | none => Except.error (PyError.valueError invalidModelMsg)
  | some model_path => Except.ok ⟨model_path⟩

/-- numpy's `a[:, :, ::-1]` on a 3-d array: reverse the last axis, i.e.
reverse each pixel's channel vector. -/
def reverseLastAxis (a : Img) : Img :=
  a.map (fun row => row.map List.reverse)

/-- detect.py lines 71-85: `image_np = np.array(image)`,
`image_np = image_np[:, :, ::-1]`, `return model(image_np)`. The callable
model is the function `model : Img → List YoloResult`. -/
def perform_detection (model : Img → List YoloResult) (image : Img) : List YoloResult :=
  model (reverseLastAxis image)

/-- Python's `int()` on a float: truncation toward zero. -/
def pyInt (q : ℚ) : Int := q.num.tdiv q.den

/-- The body of the loop in detect.py lines 114-127 for index `i` and row
`box_data`: each tensor indexing raises `IndexError` (here: `none`) when out
of range, otherwise the record is
`{"object": names[int(cls[i])], "confidence": conf[i],
  "x_min": box_data[0], "y_min": box_data[1],
  "x_max": box_data[2], "y_max": box_data[3]}`. -/
def extractRecord (names : Int → String) (cls conf : List ℚ) (i : Nat)
    (box_data : List ℚ) : Option DetectionRecord :=
  match cls[i]?, conf[i]?, box_data[0]?, box_data[1]?, box_data[2]?, box_data[3]? with
  | some cid, some c, some x0, some y0, some x1, some y1 =>
      some ⟨names (pyInt cid), c, x0, y0, x1, y1⟩
  | _, _, _, _, _, _ => none

/-- The `for i, box_data in enumerate(result.boxes.data)` loop of
detect.py lines 114-127, appending one record per iteration; a raised
`IndexError` anywhere aborts the whole call (`none`). -/
def extractLoop (names : Int → String) (cls conf : List ℚ) :
    Nat → List (List ℚ) → Option (List DetectionRecord)
  | _, [] => some []
  | i, box_data :: rest =>
    match extractRecord names cls conf i box_data,
        extractLoop names cls conf (i + 1) rest with
    | some r, some rs => some (r :: rs)
    | _, _ => none

/-- detect.py lines 88-132. `results[0]` raises `IndexError` on an empty
list (`none`); `hasattr(result, "boxes")` is always true here since `boxes`
is a genuine field; the `len(result.boxes.data)` guard skips the loop for an
empty tensor, leaving `detected_objects = []`. -/
def extract_detection_results (results : List YoloResult) :
    Option (List DetectionRecord) :=
  match results with
  | [] => none
  | result :: _ =>
    if result.boxes.data.length ≠ 0 then
      extractLoop result.names result.boxes.cls result.boxes.conf 0 result.boxes.data
    else
      some []

/-- detect.py lines 135-148: saves `results[0]` (IndexError when empty) under
`os.path.join("static", "inferences", "inferred_image.jpg")` and returns that
fixed path. -/
def render_and_save_image (results : List YoloResult) : Except PyError String :=
  match results with
  | [] => Except.error PyError.indexError
  | _ :: _ => Except.ok "static/inferences/inferred_image.jpg"

/-- The dict returned by `detect_objects` (detect.py lines 42-46). -/
structure DetectOutput where
  detected_objects : List DetectionRecord
  speed : SpeedMetrics
  inferred_image_path : String
deriving DecidableEq, Repr

/-- detect.py lines 24-46. `decoded` is the outcome of
`Image.open(BytesIO(image_data))` (`none` = the bytes are not a valid image
and `Image.open` raises); `net` is the opaque neural network attached to a
loaded model. The source order is kept: decode, then `load_model`, then
`perform_detection`, then `extract_detection_results`, then
`render_and_save_image`, then the `results[0].speed` access in the returned
dict. The `type_model` parameter defaults to `"accurate"` as on line 24. -/
def detect_objects (decoded : Option Img) (net : YOLOModel → Img → List YoloResult)
    (type_model : String := "accurate") : Except PyError DetectOutput :=
  match decoded with
  | none => Except.error PyError.decodeError
  | some image =>
    match load_model type_model with
    | Except.error e => Except.error e
    | Except.ok model =>
      let results := perform_detection (net model) image
      match extract_detection_results results with
      | none => Except.error PyError.indexError
      | some detected_objects =>
        match render_and_save_image results with
        | Except.error e => Except.error e
        | Except.ok inferred_image_path =>
          match results with
          | [] => Except.error PyError.indexError
          | r :: _ => Except.ok ⟨detected_objects, r.speed, inferred_image_path⟩

/-- The part of a FastAPI `UploadFile` the handler inspects: its
(possibly absent) filename. -/
structure UploadFile where
  filename : Option String
deriving DecidableEq, Repr

/-- The extension tuple of app.py line 114: `(".jpg", ".jpeg", ".png")`. -/
def allowedSuffixes : List String := [".jpg", ".jpeg", ".png"]

/-- Python's `str.lower()` on the (ASCII) filenames considered here:
character-wise lowercasing. -/
def pyLower (s : String) : List Char := s.data.map Char.toLower

/-- Python's `s.endswith(suffix)`. -/
def pyEndsWith (s : List Char) (suffix : String) : Bool :=
  List.isSuffixOf suffix.data s

/-- app.py lines 97-116: no filename → invalid; otherwise the file is valid
iff `file.filename.lower().endswith((".jpg", ".jpeg", ".png"))` (Python's
tuple `endswith` succeeds when any of the suffixes matches). Returns the
`(valid, message)` pair of the source. -/
def validate_file (file : UploadFile) : Bool × String :=
  match file.filename with
  | none => (false, "No file name provided.")
  | some name =>
    if allowedSuffixes.any (fun s => pyEndsWith (pyLower name) s) then
      (true, "")
    else
      (false, "Invalid file type. Allowed types: jpg, jpeg, png.")

/-- The JSON bodies the handler can put in a `JSONResponse`. -/
inductive Body where
  /-- `{"error": msg}` -/
  | errorJson (msg : String)
  /-- `{"message": msg}` -/
  | messageJson (msg : String)
  /-- the dict returned by `detect_objects`, serialized as-is -/
  | resultsJson (r : DetectOutput)
deriving DecidableEq, Repr

/-- A `JSONResponse` with its content and status code. -/
structure Response where
  content : Body
  status_code : Nat
deriving DecidableEq, Repr

/-- app.py lines 119-133. -/
def create_response (content : Body) (status_code : Nat) : Response :=
  ⟨content, status_code⟩

/-- Python truthiness of the dict `detect_objects` returns at the
`if results:` test (app.py line 89): that dict literal always carries its
three keys, and a non-empty dict is truthy whatever its values, so the test
is constantly true. -/
def dict_truthy (_ : DetectOutput) : Bool := true

/-- app.py lines 42-91, the `POST /detect/` handler. `file = none` models the
`if not file:` guard on line 79. After validation the handler runs
`detect_objects` with no exception handling, so any `PyError` it raises
escapes the handler (`Except.error`). The second component records whether
`detect_objects` was invoked at all (the decode/inference work of the
pipeline). -/
def detect (file : Option UploadFile) (type_model : String) (decoded : Option Img)
    (net : YOLOModel → Img → List YoloResult) : Except PyError Response × Bool :=
  match file with
  | none => (Except.ok (create_response (Body.errorJson "No image file provided") 400), false)
  | some f =>
    let vm := validate_file f
    if vm.fst then
      match detect_objects decoded net type_model with
      | Except.error e => (Except.error e, true)
      | Except.ok results =>
        if dict_truthy results then
          (Except.ok (create_response (Body.resultsJson results) 200), true)
        else
          (Except.ok (create_response (Body.messageJson "No objects detected") 200), true)
    else
      (Except.ok (create_response (Body.errorJson vm.snd) 400), false)

instance {ε α : Type} [DecidableEq ε] [DecidableEq α] : DecidableEq (Except ε α) := fun a b =>
  match a, b with
  | Except.ok x, Except.ok y => decidable_of_iff (x = y) (by simp)
  | Except.error x, Except.error y => decidable_of_iff (x = y) (by simp)
  | Except.ok _, Except.error _ => Decidable.isFalse (by simp)
  | Except.error _, Except.ok _ => Decidable.isFalse (by simp)

/-- A network stub used in concrete scenarios: no result objects at all. -/
def anyNet : YOLOModel → Img → List YoloResult := fun _ _ => []

/-- A concrete (degenerate) decoded image. -/
def emptyImg : Img := []

/-- Zero timing metadata, for concrete scenarios. -/
def emptySpeed : SpeedMetrics := ⟨0, 0, 0⟩

/-- The weights files read by a `load_model` call: the success path reaches
`YOLO(model_path)` and reads exactly the resolved path, while the raising
path returns before touching any weights file. -/
def weights_loaded : Except PyError YOLOModel → List String
  | Except.ok m => [m.path]
  | Except.error _ => []

/-- Is the outcome an escaped `ValueError` (the invalid-selector error)? -/
def is_value_error : Except PyError DetectOutput → Bool
  | Except.error (PyError.valueError _) => true
  | _ => false

/-- The well-formedness required of a `DetectionRecord` by the spec, for an
image of width `w` and height `h`. -/
def recordWF (w h : ℚ) (rec : DetectionRecord) : Prop :=
  0 ≤ rec.confidence ∧ rec.confidence ≤ 1 ∧
  rec.x_min ≤ rec.x_max ∧ rec.y_min ≤ rec.y_max ∧
  0 ≤ rec.x_min ∧ rec.x_max ≤ w ∧ 0 ≤ rec.y_min ∧ rec.y_max ≤ h

/-- A raw box row whose first four entries, when present, are ordered,
non-negative coordinates inside the `w × h` frame. -/
def boxOk (w h : ℚ) (bd : List ℚ) : Prop :=
  ∀ x0 y0 x1 y1, bd[0]? = some x0 → bd[1]? = some y0 →
    bd[2]? = some x1 → bd[3]? = some y1 →
    0 ≤ x0 ∧ x0 ≤ x1 ∧ x1 ≤ w ∧ 0 ≤ y0 ∧ y0 ≤ y1 ∧ y1 ≤ h

/-- A result object with zero detections (`boxes.data` empty). -/
def zeroRaw : YoloResult := ⟨⟨[], [], []⟩, fun _ => "", emptySpeed⟩

/-- A network producing one result object with zero detections. -/
def zeroNet : YOLOModel → Img → List YoloResult := fun _ _ => [zeroRaw]

/-- A result object with a single well-formed detection (a person at
confidence 1 in box (10,20)-(30,40)). -/
def oneRaw : YoloResult :=
  ⟨⟨[[10, 20, 30, 40]], [0], [1]⟩, fun _ => "person", ⟨1, 2, 3⟩⟩

/-- A network producing exactly the single detection of `oneRaw`. -/
def oneNet : YOLOModel → Img → List YoloResult := fun _ _ => [oneRaw]

/-- The record `extract_detection_results` builds from `oneRaw`. -/
def oneRecord : DetectionRecord := ⟨"person", 1, 10, 20, 30, 40⟩

/-- A raw result whose confidence tensor holds the out-of-range value 2. -/
def badRaw : YoloResult := ⟨⟨[[0, 0, 1, 1]], [0], [2]⟩, fun _ => "obj", emptySpeed⟩

/-- The record `extract_detection_results` builds from `badRaw`. -/
def badRecord : DetectionRecord := ⟨"obj", 2, 0, 0, 1, 1⟩

/-- A raw result with a single in-range detection, for witnesses. -/
def goodRaw : YoloResult := ⟨⟨[[0, 0, 1, 1]], [0], [1]⟩, fun _ => "obj", emptySpeed⟩

/-- The record `extract_detection_results` builds from `goodRaw`. -/
def goodRecord : DetectionRecord := ⟨"obj", 1, 0, 0, 1, 1⟩

theorem lookup_model_paths_eq_none (s : String) (h1 : s ≠ "fast") (h2 : s ≠ "accurate") :
    MODEL_PATHS.lookup s = none := by
  have hb1 : (s == "fast") = false := beq_eq_false_iff_ne.mpr h1
  have hb2 : (s == "accurate") = false := beq_eq_false_iff_ne.mpr h2
  unfold MODEL_PATHS
  simp [List.lookup, hb1, hb2]

theorem extractLoop_wf (names : Int → String) (cls conf : List ℚ) (w h : ℚ)
    (hconf : ∀ q ∈ conf, 0 ≤ q ∧ q ≤ 1) :
    ∀ (data : List (List ℚ)) (i : Nat) (recs : List DetectionRecord),
      (∀ bd ∈ data, boxOk w h bd) →
      extractLoop names cls conf i data = some recs →
      ∀ rec ∈ recs, recordWF w h rec := by
  intro data
  induction data with
  | nil =>
    intro i recs _ hout rec hrec
    simp only [extractLoop] at hout
    cases hout
    simp at hrec
  | cons bd rest ih =>
    intro i recs hbox hout rec hrec
    cases hR : extractRecord names cls conf i bd with
    | none => simp [extractLoop, hR] at hout
    | some r0 =>
      cases hL : extractLoop names cls conf (i + 1) rest with
      | none => simp [extractLoop, hR, hL] at hout
      | some rs =>
        simp only [extractLoop, hR, hL] at hout
        cases hout
        rcases List.mem_cons.mp hrec with hrec0 | hrecs
        · subst hrec0
          cases hcid : cls[i]? with
          | none => simp [extractRecord, hcid] at hR
          | some cid =>
          cases hc : conf[i]? with
          | none => simp [extractRecord, hcid, hc] at hR
          | some c =>
          cases h0 : bd[0]? with
          | none => simp [extractRecord, hcid, hc, h0] at hR
          | some x0 =>
          cases h1 : bd[1]? with
          | none => simp [extractRecord, hcid, hc, h0, h1] at hR
          | some y0 =>
          cases h2 : bd[2]? with
          | none => simp [extractRecord, hcid, hc, h0, h1, h2] at hR
          | some x1 =>
          cases h3 : bd[3]? with
          | none => simp [extractRecord, hcid, hc, h0, h1, h2, h3] at hR
          | some y1 =>
          simp only [extractRecord, hcid, hc, h0, h1, h2, h3, Option.some.injEq] at hR
          obtain ⟨hc0, hc1⟩ := hconf c (List.getElem?_mem hc)
          obtain ⟨b0, b1, b2, b3, b4, b5⟩ :=
            hbox bd (List.mem_cons_self bd rest) x0 y0 x1 y1 h0 h1 h2 h3
          subst hR
          exact ⟨hc0, hc1, b1, b4, b0, b2, b3, b5⟩
        · exact ih (i + 1) rs (fun b hb => hbox b (List.mem_cons_of_mem bd hb)) hL rec hrecs

/-- Claim C1, counterexample: a POST with the allowed extension `.jpg` whose
bytes are not a valid image does NOT produce a 400-class error response; the
decode error raised by `Image.open` escapes the handler as an uncaught
exception (the handler has no try/except around `detect_objects`). -/
theorem C1_counterexample :
    detect (some ⟨some "photo.jpg"⟩) "accurate" none anyNet
      = (Except.error PyError.decodeError, true) := by decide

/-- Claim C1 (amended): for every upload that passes extension validation but
whose bytes are not a valid image, the decode error raised inside
`detect_objects` escapes the `/detect/` handler uncaught — no 400 error
response is produced by the application code. -/
theorem C1_theorem (f : UploadFile) (tm : String)
    (net : YOLOModel → Img → List YoloResult)
    (hv : (validate_file f).fst = true) :
    detect (some f) tm none net = (Except.error PyError.decodeError, true) := by
  simp [detect, detect_objects, hv]

/-- Witness for C1_theorem at a concrete valid filename. -/
theorem C1_witness :
    detect (some ⟨some "photo.jpg"⟩) "fast" none anyNet
      = (Except.error PyError.decodeError, true) :=
  C1_theorem ⟨some "photo.jpg"⟩ "fast" anyNet (by decide)

/-- Claim C2, counterexample: for `type_model = "medium"` (not one of
fast/accurate) with a valid file, the handler does NOT return a 400 JSON
error; the `ValueError` raised by `load_model` escapes the handler
uncaught. -/
theorem C2_counterexample :
    detect (some ⟨some "photo.jpg"⟩) "medium" (some emptyImg) anyNet
      = (Except.error (PyError.valueError invalidModelMsg), true) := by decide

/-- Claim C2 (amended): the handler returns `{"error": <string>}` with status
400 for a missing file and for an unsupported extension, but a `type_model`
outside {fast, accurate} makes `load_model` raise an uncaught `ValueError`
(whose message lists the valid options) that escapes the handler instead of
becoming a 400 response. -/
theorem C2_theorem (f : UploadFile) (tm : String) (img : Img)
    (net net2 : YOLOModel → Img → List YoloResult) (decoded : Option Img)
    (hv : (validate_file f).fst = true)
    (h1 : tm ≠ "fast") (h2 : tm ≠ "accurate") :
    detect none tm decoded net2
        = (Except.ok (create_response (Body.errorJson "No image file provided") 400), false) ∧
    detect (some ⟨some "clip.gif"⟩) tm decoded net2
        = (Except.ok (create_response
            (Body.errorJson "Invalid file type. Allowed types: jpg, jpeg, png.") 400), false) ∧
    detect (some f) tm (some img) net
      = (Except.error (PyError.valueError invalidModelMsg), true) := by
  have hlk := lookup_model_paths_eq_none tm h1 h2
  have hgif : validate_file ⟨some "clip.gif"⟩
      = (false, "Invalid file type. Allowed types: jpg, jpeg, png.") := by decide
  refine ⟨rfl, by simp [detect, hgif], ?_⟩
  simp [detect, detect_objects, load_model, hv, hlk]

/-- Witness for C2_theorem at concrete inputs. -/
theorem C2_witness :
    detect none "medium" (some emptyImg) anyNet
        = (Except.ok (create_response (Body.errorJson "No image file provided") 400), false) ∧
    detect (some ⟨some "clip.gif"⟩) "medium" (some emptyImg) anyNet
        = (Except.ok (create_response
            (Body.errorJson "Invalid file type. Allowed types: jpg, jpeg, png.") 400), false) ∧
    detect (some ⟨some "photo.jpg"⟩) "medium" (some emptyImg) anyNet
      = (Except.error (PyError.valueError invalidModelMsg), true) :=
  C2_theorem ⟨some "photo.jpg"⟩ "medium" emptyImg anyNet anyNet (some emptyImg)
    (by decide) (by decide) (by decide)

/-- Claim C3: on a valid request whose image yields zero detections,
`detected_objects` is indeed the empty sequence, BUT the response body is the
full three-key dict `{"detected_objects": [], "speed": ..,
"inferred_image_path": ..}` with status 200 — not
`{"message": "No objects detected"}`. The message branch of app.py line 91 is
dead because the dict returned by `detect_objects` always has three keys and
is therefore always truthy at the `if results:` test. This evaluates the code
at the failing input of the code_bug verdict. -/
theorem C3_theorem :
    detect (some ⟨some "photo.jpg"⟩) "accurate" (some emptyImg) zeroNet
      = (Except.ok (create_response
          (Body.resultsJson ⟨[], emptySpeed, "static/inferences/inferred_image.jpg"⟩) 200),
         true) := by decide

/-- Claim C4: `load_model` resolves "fast" and "accurate" to their weights
paths, and for any other string raises the `ValueError` before any weights
file is read, with a message enumerating exactly the two valid options. -/
theorem C4_theorem (s : String) (h1 : s ≠ "fast") (h2 : s ≠ "accurate") :
    load_model "fast" = Except.ok ⟨"models/yolov8n.pt"⟩ ∧
    load_model "accurate" = Except.ok ⟨"models/yolov8x.pt"⟩ ∧
    load_model s = Except.error (PyError.valueError invalidModelMsg) ∧
    weights_loaded (load_model s) = [] ∧
    invalidModelMsg
      = "Invalid model type. Available options: [\x27fast\x27, \x27accurate\x27]." := by
  have hlk := lookup_model_paths_eq_none s h1 h2
  refine ⟨by decide, by decide, ?_, ?_, by decide⟩
  · simp [load_model, hlk]
  · simp [load_model, weights_loaded, hlk]

/-- Witness for C4_theorem at the invalid selector "medium". -/
theorem C4_witness :
    load_model "fast" = Except.ok ⟨"models/yolov8n.pt"⟩ ∧
    load_model "accurate" = Except.ok ⟨"models/yolov8x.pt"⟩ ∧
    load_model "medium" = Except.error (PyError.valueError invalidModelMsg) ∧
    weights_loaded (load_model "medium") = [] ∧
    invalidModelMsg
      = "Invalid model type. Available options: [\x27fast\x27, \x27accurate\x27]." :=
  C4_theorem "medium" (by decide) (by decide)

/-- Claim C5: `perform_detection` feeds the model the pixel array with its
last axis reversed: the array passed to the model is exactly
`reverseLastAxis image`, and wherever the decoded image holds a pixel
`[r, g, b]`, the array passed to the model holds `[b, g, r]`. -/
theorem C5_theorem (model : Img → List YoloResult) (image : Img) (i j : Nat) (r g b : ℚ)
    (hp : Option.bind image[i]? (fun row => row[j]?) = some [r, g, b]) :
    perform_detection model image = model (reverseLastAxis image) ∧
    Option.bind (reverseLastAxis image)[i]? (fun row => row[j]?) = some [b, g, r] := by
  refine ⟨rfl, ?_⟩
  cases hrow : image[i]? with
  | none => rw [hrow] at hp; simp at hp
  | some row =>
    rw [hrow] at hp
    simp only [Option.some_bind] at hp
    simp [reverseLastAxis, hrow, hp]

/-- Witness for C5_theorem on a one-pixel image with channels (1,2,3). -/
theorem C5_witness :
    perform_detection (fun _ => []) [[[1, 2, 3]]]
        = (fun _ => []) (reverseLastAxis [[[1, 2, 3]]]) ∧
    Option.bind (reverseLastAxis [[[1, 2, 3]]])[0]? (fun row => row[0]?)
        = some [3, 2, 1] :=
  C5_theorem (fun _ => []) [[[1, 2, 3]]] 0 0 1 2 3 (by decide)

/-- Claim C6, counterexample: the normalizer copies confidences verbatim, so
for a raw detector output carrying confidence 2 it emits a `DetectionRecord`
with confidence 2 > 1, violating the claimed `confidence ≤ 1` invariant. -/
theorem C6_counterexample :
    extract_detection_results [badRaw] = some [badRecord]
      ∧ 1 < badRecord.confidence := by decide

/-- Claim C6 (amended): `extract_detection_results` copies confidences and
coordinates verbatim, so every emitted record satisfies
`0 ≤ confidence ≤ 1`, `x_min ≤ x_max`, `y_min ≤ y_max` and the `[0,w]×[0,h]`
bounds exactly when the raw detector output already satisfies them. -/
theorem C6_theorem (res : YoloResult) (rest : List YoloResult) (w h : ℚ)
    (recs : List DetectionRecord) (rec : DetectionRecord)
    (hconf : ∀ q ∈ res.boxes.conf, 0 ≤ q ∧ q ≤ 1)
    (hbox : ∀ bd ∈ res.boxes.data, boxOk w h bd)
    (hout : extract_detection_results (res :: rest) = some recs)
    (hrec : rec ∈ recs) :
    recordWF w h rec := by
  simp only [extract_detection_results] at hout
  by_cases hd : res.boxes.data.length ≠ 0
  · rw [if_pos hd] at hout
    exact extractLoop_wf res.names res.boxes.cls res.boxes.conf w h hconf
      res.boxes.data 0 recs hbox hout rec hrec
  · rw [if_neg hd] at hout
    cases hout
    simp at hrec

/-- Witness for C6_theorem on a concrete in-range raw detection. -/
theorem C6_witness : recordWF 2 2 goodRecord :=
  C6_theorem goodRaw [] 2 2 [goodRecord] goodRecord
    (by intro q hq; simp [goodRaw] at hq; subst hq; exact ⟨by norm_num, by norm_num⟩)
    (by intro bd hbd x0 y0 x1 y1 e0 e1 e2 e3
        simp [goodRaw] at hbd
        subst hbd
        simp at e0 e1 e2 e3
        subst e0; subst e1; subst e2; subst e3
        norm_num)
    (by decide) (by simp)

/-- Claim C7: on a successful request with one detection the 200 response
body is NOT a bare JSON array of records — it is the dict wrapping the array
together with `speed` and `inferred_image_path`. This evaluates the code at
the failing input of the code_bug verdict (the endpoint docstring documents a
bare array). -/
theorem C7_theorem :
    detect (some ⟨some "photo.jpg"⟩) "fast" (some emptyImg) oneNet
      = (Except.ok (create_response
          (Body.resultsJson ⟨[oneRecord], ⟨1, 2, 3⟩, "static/inferences/inferred_image.jpg"⟩)
          200), true) := by decide

/-- Claim C8: any upload whose (lowercased) filename ends in none of
`.jpg`/`.jpeg`/`.png` is answered with the 400 message naming the allowed
types `jpg, jpeg, png`, and `detect_objects` — hence all decode and inference
work — is never invoked (the returned flag is `false`, and the response does
not depend on the request's bytes or on the network). -/
theorem C8_theorem (name : String) (tm : String) (decoded : Option Img)
    (net : YOLOModel → Img → List YoloResult)
    (hext : allowedSuffixes.any (fun s => pyEndsWith (pyLower name) s) = false) :
    detect (some ⟨some name⟩) tm decoded net
      = (Except.ok (create_response
          (Body.errorJson "Invalid file type. Allowed types: jpg, jpeg, png.") 400), false) := by
  simp [detect, validate_file, hext]

/-- Witness for C8_theorem at the concrete filename "clip.gif". -/
theorem C8_witness :
    detect (some ⟨some "clip.gif"⟩) "accurate" (some emptyImg) anyNet
      = (Except.ok (create_response
          (Body.errorJson "Invalid file type. Allowed types: jpg, jpeg, png.") 400), false) :=
  C8_theorem "clip.gif" "accurate" (some emptyImg) anyNet (by decide)

/-- Claim C9: extension validation is case-insensitive — a named file is
accepted iff its lowercased name ends with `.jpg`, `.jpeg` or `.png`; in
particular `.JPG`, `.Png` and `.JPEG` pass and `.gif` fails. -/
theorem C9_theorem :
    (∀ name : String,
      ((validate_file ⟨some name⟩).fst = true ↔
        (pyEndsWith (pyLower name) ".jpg" = true ∨ pyEndsWith (pyLower name) ".jpeg" = true ∨
         pyEndsWith (pyLower name) ".png" = true))) ∧
    (validate_file ⟨some "photo.JPG"⟩).fst = true ∧
    (validate_file ⟨some "scan.Png"⟩).fst = true ∧
    (validate_file ⟨some "pic.JPEG"⟩).fst = true ∧
    (validate_file ⟨some "clip.gif"⟩).fst = false := by
  refine ⟨?_, by decide, by decide, by decide, by decide⟩
  intro name
  have hsel : (validate_file ⟨some name⟩).fst
      = allowedSuffixes.any (fun s => pyEndsWith (pyLower name) s) := by
    simp only [validate_file]
    split <;> simp_all
  rw [hsel]
  simp [allowedSuffixes, or_assoc]

/-- Claim C10: calling `detect_objects` without an explicit `type_model` is
the same as calling it with "accurate"; that selector resolves to the
accurate-tier weights path `models/yolov8x.pt`, and a defaulted call on a
decoded image never fails with the invalid-selector `ValueError`. -/
theorem C10_theorem :
    (∀ decoded net, detect_objects decoded net = detect_objects decoded net "accurate") ∧
    load_model "accurate" = Except.ok ⟨"models/yolov8x.pt"⟩ ∧
    (∀ img net, is_value_error (detect_objects (some img) net) = false) := by
  refine ⟨fun _ _ => rfl, by decide, ?_⟩
  intro img net
  show is_value_error (detect_objects (some img) net "accurate") = false
  have hlm : load_model "accurate" = Except.ok ⟨"models/yolov8x.pt"⟩ := by decide
  simp only [detect_objects, hlm]
  cases hE : extract_detection_results (perform_detection (net ⟨"models/yolov8x.pt"⟩) img) with
  | none => simp [hE, is_value_error]
  | some l =>
    cases hres : perform_detection (net ⟨"models/yolov8x.pt"⟩) img with
    | nil => rw [hres] at hE; simp [extract_detection_results] at hE
    | cons r rs => simp [hE, hres, render_and_save_image, is_value_error]

end BlurAnything
